import Mathlib

/-!
# glogger: a leveled console logger

A shallow embedding of `logger.go` (package `glogger`) together with the
properties of its public operations.

Modelling conventions.

* `LogLevel` is Go's `int`; only comparisons are made on it, so it is `Int`.
* The output sink (`io.Writer`) is an identifier; the process state records
  every `Write` call a sink received, oldest first.
* A call either returns, ends the process through `os.Exit`, or panics
  (a nil `*log.Logger` taken from the table); see `Outcome`.
* The logger lives in the process state, so that a call could change it.
* The call stack is explicit: every function receives the frames of its
  callers and pushes its own frame (file and line of the call expression)
  when it calls on.  `runtime.Caller(skip)` indexes this list.
* `time.Now()` is a parameter of the call (the clock reading); `fmt.Sprintf`
  for caller supplied templates is a parameter as well.  The logger's own
  `Sprintf` calls have `%s` verbs over strings and one `%d` over a line
  number; they are written as concatenations.
-/

namespace Glogger

/-! ## Levels and colours -/

/-- LogLevel represents the log level (`type LogLevel int`). -/
abbrev LogLevel := Int

def LogLevelDebug : LogLevel := 0
def LogLevelInfo : LogLevel := 1
def LogLevelWarning : LogLevel := 2
def LogLevelError : LogLevel := 3
def LogLevelFatal : LogLevel := 4

/-- The escape character `\033`. -/
def esc : Char := '\x1b'

def ColorRed : String := "\x1b[31m"
def ColorGreen : String := "\x1b[32m"
def ColorYellow : String := "\x1b[33m"
def ColorBlue : String := "\x1b[34m"
def ColorReset : String := "\x1b[0m"
def ColorMagenta : String := "\x1b[35m"
def ColorCyan : String := "\x1b[36m"

/-! ## Library facilities the logger calls -/

/-- An output sink (`io.Writer`), named by an identifier. -/
abbrev Writer := Nat

/-- A `*log.Logger` of the standard library: the writer it is bound to, its
line header text and its header flags (`log.New(out, header, flag)`). -/
structure StdLogger where
  out : Writer
  pfx : String
  flag : Int
deriving DecidableEq, Repr

/-- The constructor `log.New`. -/
def logNew (out : Writer) (pfx : String) (flag : Int) : StdLogger :=
  { out := out, pfx := pfx, flag := flag }

/-- A value passed for `interface{}` in an argument list. -/
inductive Value where
  | int (i : Int)
  | str (s : String)
deriving DecidableEq, Repr

/-- One active stack frame: the source file of the function and the line it
is currently executing (the line of its pending call). -/
structure Frame where
  file : String
  line : Nat
deriving DecidableEq, Repr

/-- A clock reading in local time, to the second. -/
structure Time where
  year : Nat
  month : Nat
  day : Nat
  hour : Nat
  minute : Nat
  second : Nat
deriving DecidableEq, Repr

/-- Decimal rendering of `n`, padded with zeros on the left up to `width`. -/
def zeroPad (width n : Nat) : String :=
  String.mk (List.replicate (width - (toString n).length) '0') ++ toString n

/-- The method `Time.Format` at the layout `"2006/01/02 15:04:05"`. -/
def Time.Format (t : Time) : String :=
  zeroPad 4 t.year ++ "/" ++ zeroPad 2 t.month ++ "/" ++ zeroPad 2 t.day ++ " " ++
    zeroPad 2 t.hour ++ ":" ++ zeroPad 2 t.minute ++ ":" ++ zeroPad 2 t.second

/-- Drops the `/` characters at the end of a path. -/
def stripTrailingSlashes (path : List Char) : List Char :=
  (path.reverse.dropWhile (fun c => c == '/')).reverse

/-- The characters after the last `/` of a path. -/
def lastElement (path : List Char) : List Char :=
  (path.reverse.takeWhile (fun c => c != '/')).reverse

/-- The function `filepath.Base` (slash separated paths, no volume name):
the last element of the path; trailing slashes are removed first; the empty
path gives `.`, a path of slashes only gives `/`. -/
def Base (path : String) : String :=
  if path = "" then "."
  else
    let last := lastElement (stripTrailingSlashes path.data)
    if last = [] then "/" else String.mk last

/-- The function `runtime.Caller(skip)` on the stack `stk`, whose head is the
frame of the function calling `runtime.Caller`: file, line and whether the
frame exists. -/
def runtimeCaller (stk : List Frame) (skip : Nat) : String × Nat × Bool :=
  match stk.get? skip with
  | some f => (f.file, f.line, true)
  | none => ("", 0, false)

/-! ## The logger -/

/-- Logger represents a custom logger with different log levels. -/
structure Logger where
  level : LogLevel
  loggers : List (LogLevel × StdLogger)
  timeColor : String
  fileColor : String
  renderCallerInfo : Bool
deriving DecidableEq, Repr

/-- The assignment `m[k] = v` on a map kept as an association list. -/
def mapSet (m : List (LogLevel × StdLogger)) (k : LogLevel) (v : StdLogger) :
    List (LogLevel × StdLogger) :=
  (k, v) :: m.filter (fun e => e.1 != k)

/-- The read `m[k]` on a map kept as an association list; `none` is the nil
pointer a Go map gives for a missing key. -/
def mapGet (m : List (LogLevel × StdLogger)) (k : LogLevel) : Option StdLogger :=
  m.lookup k

/-- NewLogger creates a new instance of the custom logger. -/
def NewLogger (out : Writer) (level : LogLevel) (renderCallerInfo : Bool) : Logger :=
  let loggers :=
    [LogLevelDebug, LogLevelInfo, LogLevelWarning, LogLevelError, LogLevelFatal].foldl
      (fun m lvl => mapSet m lvl (logNew out "" 0)) []
  { level := level
    loggers := loggers
    timeColor := ColorCyan
    fileColor := ColorMagenta
    renderCallerInfo := renderCallerInfo }

/-- The process state a call acts on: the logger the receiver points to and
the `Write` calls the sinks have received so far, oldest first. -/
structure Proc where
  logger : Logger
  writes : List (Writer × String)
deriving DecidableEq, Repr

/-- How a call ends: it returns, the process ends through `os.Exit(code)`, or
the call panics on a nil `*log.Logger`. -/
inductive Outcome where
  | returned (p : Proc)
  | exited (code : Int) (p : Proc)
  | panicked (p : Proc)
deriving DecidableEq, Repr

/-- The process state an outcome leaves. -/
def Outcome.proc : Outcome → Proc
  | .returned p => p
  | .exited _ p => p
  | .panicked p => p

/-- Sequencing of statements: `k` runs only when the first call returned. -/
def Outcome.andThen (o : Outcome) (k : Proc → Outcome) : Outcome :=
  match o with
  | .returned p => k p
  | .exited c p => .exited c p
  | .panicked p => .panicked p

/-- The call `os.Exit(code)`. -/
def osExit (code : Int) (p : Proc) : Outcome := .exited code p

/-- The method `(*log.Logger).Output(calldepth, s)` for a logger without
header flags (the only kind `NewLogger` creates): the header is the fixed
header text, a newline is added when `s` does not end in one, and the buffer
goes to the writer in one `Write` call, whose error is returned to a caller
that drops it.  (`calldepth` is read only under the file flags.) -/
def StdLogger.Output (lg : StdLogger) (_calldepth : Nat) (s : String) (p : Proc) : Proc :=
  let buf := lg.pfx ++ s
  let buf := if buf.data.getLast? = some '\n' then buf else buf ++ "\n"
  { p with writes := p.writes ++ [(lg.out, buf)] }

/-- The path under which the compiler recorded `logger.go`. -/
def loggerFile : String := "/go/src/github.com/gopkgsquad/glogger/logger.go"

/-- The method `getCallerInfo`; `stk` holds the frames of its callers. -/
def getCallerInfo (l : Logger) (stk : List Frame) : String :=
  let (file, line, _) := runtimeCaller ({ file := loggerFile, line := 105 } :: stk) 3
  let file := Base file
  l.fileColor ++ "[" ++ file ++ ":" ++ toString line ++ "]" ++ ColorReset

/-- The method `getLevelColor`. -/
def getLevelColor (_l : Logger) (level : LogLevel) : String :=
  if level = LogLevelDebug then ColorBlue
  else if level = LogLevelInfo then ColorGreen
  else if level = LogLevelWarning then ColorYellow
  else if level = LogLevelError ∨ level = LogLevelFatal then ColorRed
  else ColorReset

/-- The method `logWithColor`; `stk` holds the frames of its callers and `now`
is what `time.Now()` reads. -/
def logWithColor (stk : List Frame) (now : Time) (level : LogLevel) (msg : String)
    (p : Proc) : Outcome :=
  let l := p.logger
  if l.level ≤ level then
    let timestamp := l.timeColor ++ "[" ++ now.Format ++ "]" ++ ColorReset ++ " "
    let levelColor := getLevelColor l level
    let logMessage := timestamp ++ levelColor ++ msg ++ ColorReset
    let logMessage :=
      if l.renderCallerInfo then
        let caller := getCallerInfo l ({ file := loggerFile, line := 96 } :: stk)
        let callerInfo := l.fileColor ++ "[" ++ caller ++ "]" ++ ColorReset ++ " "
        callerInfo ++ logMessage
      else logMessage
    match mapGet l.loggers level with
    | none => .panicked p
    | some lg => .returned (lg.Output 3 logMessage p)
  else .returned p

/-- Debug logs a debug message. -/
def Debug (stk : List Frame) (now : Time) (msg : String) (p : Proc) : Outcome :=
  logWithColor ({ file := loggerFile, line := 66 } :: stk) now LogLevelDebug msg p

/-- Info logs an info message. -/
def Info (stk : List Frame) (now : Time) (msg : String) (p : Proc) : Outcome :=
  logWithColor ({ file := loggerFile, line := 71 } :: stk) now LogLevelInfo msg p

/-- Warning logs a warning message. -/
def Warning (stk : List Frame) (now : Time) (msg : String) (p : Proc) : Outcome :=
  logWithColor ({ file := loggerFile, line := 76 } :: stk) now LogLevelWarning msg p

/-- Error logs an error message. -/
def Error (stk : List Frame) (now : Time) (msg : String) (p : Proc) : Outcome :=
  logWithColor ({ file := loggerFile, line := 81 } :: stk) now LogLevelError msg p

/-- Fatal logs a fatal message and exits the application. -/
def Fatal (stk : List Frame) (now : Time) (msg : String) (p : Proc) : Outcome :=
  (logWithColor ({ file := loggerFile, line := 86 } :: stk) now LogLevelFatal msg p).andThen
    (osExit 1)

/-- The method `logWithColorf`; `sprintf` is `fmt.Sprintf`. -/
def logWithColorf (sprintf : String → List Value → String) (stk : List Frame) (now : Time)
    (level : LogLevel) (format : String) (args : List Value) (p : Proc) : Outcome :=
  if p.logger.level ≤ level then
    let message := sprintf format args
    logWithColor ({ file := loggerFile, line := 149 } :: stk) now level message p
  else .returned p

/-- Infof logs an info message with formatting. -/
def Infof (sprintf : String → List Value → String) (stk : List Frame) (now : Time)
    (format : String) (args : List Value) (p : Proc) : Outcome :=
  logWithColorf sprintf ({ file := loggerFile, line := 127 } :: stk) now LogLevelInfo
    format args p

/-- Warningf logs a warning message with formatting. -/
def Warningf (sprintf : String → List Value → String) (stk : List Frame) (now : Time)
    (format : String) (args : List Value) (p : Proc) : Outcome :=
  logWithColorf sprintf ({ file := loggerFile, line := 132 } :: stk) now LogLevelWarning
    format args p

/-- Errorf logs an error message with formatting. -/
def Errorf (sprintf : String → List Value → String) (stk : List Frame) (now : Time)
    (format : String) (args : List Value) (p : Proc) : Outcome :=
  logWithColorf sprintf ({ file := loggerFile, line := 137 } :: stk) now LogLevelError
    format args p

/-- Fatalf logs a fatal message with formatting and exits the application. -/
def Fatalf (sprintf : String → List Value → String) (stk : List Frame) (now : Time)
    (format : String) (args : List Value) (p : Proc) : Outcome :=
  (logWithColorf sprintf ({ file := loggerFile, line := 142 } :: stk) now LogLevelFatal
    format args p).andThen (osExit 1)

/-! ## The nine public calls -/

/-- A call of one of the public logging methods, with its arguments. -/
inductive Call where
  | debug (msg : String)
  | info (msg : String)
  | warning (msg : String)
  | error (msg : String)
  | fatal (msg : String)
  | infof (format : String) (args : List Value)
  | warningf (format : String) (args : List Value)
  | errorf (format : String) (args : List Value)
  | fatalf (format : String) (args : List Value)
deriving DecidableEq, Repr

/-- The severity of a call. -/
def Call.level : Call → LogLevel
  | .debug _ => LogLevelDebug
  | .info _ | .infof _ _ => LogLevelInfo
  | .warning _ | .warningf _ _ => LogLevelWarning
  | .error _ | .errorf _ _ => LogLevelError
  | .fatal _ | .fatalf _ _ => LogLevelFatal

/-- Whether the call is one of the five plain-message methods. -/
def Call.isPlain : Call → Bool
  | .debug _ | .info _ | .warning _ | .error _ | .fatal _ => true
  | _ => false

/-- Whether the call is `Fatal` or `Fatalf`. -/
def Call.isFatal : Call → Bool
  | .fatal _ | .fatalf _ _ => true
  | _ => false

/-- The message text of a call: the literal string, or the substituted
template. -/
def Call.message (sprintf : String → List Value → String) : Call → String
  | .debug m | .info m | .warning m | .error m | .fatal m => m
  | .infof f a | .warningf f a | .errorf f a | .fatalf f a => sprintf f a

/-- The line of `logger.go` on which the public method of the call hands on
to `logWithColor` or `logWithColorf`. -/
def Call.line : Call → Nat
  | .debug _ => 66
  | .info _ => 71
  | .warning _ => 76
  | .error _ => 81
  | .fatal _ => 86
  | .infof _ _ => 127
  | .warningf _ _ => 132
  | .errorf _ _ => 137
  | .fatalf _ _ => 142

/-- Runs a call: `stk` holds the frames of the code that makes the call, its
head being the call site. -/
def Call.run (sprintf : String → List Value → String) (stk : List Frame) (now : Time) :
    Call → Proc → Outcome
  | .debug m => Debug stk now m
  | .info m => Info stk now m
  | .warning m => Warning stk now m
  | .error m => Error stk now m
  | .fatal m => Fatal stk now m
  | .infof f a => Infof sprintf stk now f a
  | .warningf f a => Warningf sprintf stk now f a
  | .errorf f a => Errorf sprintf stk now f a
  | .fatalf f a => Fatalf sprintf stk now f a

/-! ## A fragment of `fmt.Sprintf`, for concrete runs -/

/-- A value under the verb `%v`. -/
def Value.render : Value → String
  | .int i => toString i
  | .str s => s

/-- A value with the name of its type, as Go's markers print it. -/
def Value.typed : Value → String
  | .int i => "int=" ++ toString i
  | .str s => "string=" ++ s

/-- One verb applied to one value; a verb that does not fit the value gives
the marker `%!c(type=value)`. -/
def applyVerb (c : Char) (v : Value) : String :=
  match c, v with
  | 'v', v => v.render
  | 'd', .int i => toString i
  | 's', .str s => s
  | c, v => "%!" ++ c.toString ++ "(" ++ v.typed ++ ")"

/-- Template substitution over the characters of the template. -/
def sprintfChars : List Char → List Value → String
  | [], [] => ""
  | [], a :: as => "%!(EXTRA " ++ ", ".intercalate ((a :: as).map Value.typed) ++ ")"
  | ['%'], as => "%!(NOVERB)" ++ sprintfChars [] as
  | '%' :: '%' :: rest, as => "%" ++ sprintfChars rest as
  | '%' :: c :: rest, [] => "%!" ++ c.toString ++ "(MISSING)" ++ sprintfChars rest []
  | '%' :: c :: rest, a :: as => applyVerb c a ++ sprintfChars rest as
  | c :: rest, as => c.toString ++ sprintfChars rest as

/-- The function `fmt.Sprintf` on templates whose verbs are among `%d`, `%s`,
`%v` and `%%`, written without flags, width or precision. -/
def Sprintf (format : String) (args : List Value) : String :=
  sprintfChars format.data args

/-! ## Colour codes of a line -/

/-- The six codes that start a colour. -/
def startCodes : List String :=
  [ColorRed, ColorGreen, ColorYellow, ColorBlue, ColorMagenta, ColorCyan]

/-- The colour codes occurring in a text, in order of occurrence; `true`
stands for a start code, `false` for the reset code. -/
def colourCodes : List Char → List Bool
  | [] => []
  | c :: cs =>
    if ColorReset.data.isPrefixOf (c :: cs) then false :: colourCodes cs
    else if startCodes.any (fun k => k.data.isPrefixOf (c :: cs)) then true :: colourCodes cs
    else colourCodes cs

/-- Whether codes come in pairs, every start code followed by a reset code
before the next start code. -/
def paired : List Bool → Bool
  | [] => true
  | true :: false :: rest => paired rest
  | _ => false

/-! ## The line composed for a call -/

/-- The frames above `logWithColor` while a call runs on the stack `stk`. -/
def Call.frames (c : Call) (stk : List Frame) : List Frame :=
  if c.isPlain then { file := loggerFile, line := c.line } :: stk
  else { file := loggerFile, line := 149 } :: { file := loggerFile, line := c.line } :: stk

/-- The line a logger made by `NewLogger` writes for a call. -/
def Call.composed (c : Call) (sprintf : String → List Value → String) (stk : List Frame)
    (now : Time) (l : Logger) : String :=
  (if l.renderCallerInfo then
      l.fileColor ++ "[" ++
        getCallerInfo l ({ file := loggerFile, line := 96 } :: c.frames stk) ++ "]" ++
        ColorReset ++ " "
    else "") ++
    (l.timeColor ++ "[" ++ now.Format ++ "]" ++ ColorReset ++ " " ++
      getLevelColor l c.level ++ c.message sprintf ++ ColorReset) ++ "\n"

/-! ## Auxiliary facts -/

theorem data_append_reset_getLast (x : String) :
    (x ++ ColorReset).data.getLast? = some 'm' := by
  simp [String.data_append, ColorReset, List.getLast?_append]

theorem mapGet_NewLogger (out : Writer) (T : LogLevel) (r : Bool) (level : LogLevel)
    (h : level ∈ [LogLevelDebug, LogLevelInfo, LogLevelWarning, LogLevelError, LogLevelFatal]) :
    mapGet (NewLogger out T r).loggers level = some (logNew out "" 0) := by
  simp only [List.mem_cons, List.mem_singleton, List.not_mem_nil, or_false] at h
  rcases h with h | h | h | h | h <;> subst h <;> rfl

theorem Output_reset (lg : StdLogger) (d : Nat) (x : String) (p : Proc) :
    lg.Output d (x ++ ColorReset) p =
      { p with writes := p.writes ++ [(lg.out, lg.pfx ++ (x ++ ColorReset) ++ "\n")] } := by
  have h : (lg.pfx ++ (x ++ ColorReset)).data.getLast? = some 'm' := by
    rw [← String.append_assoc]; exact data_append_reset_getLast _
  unfold StdLogger.Output
  simp only [h]
  simp

theorem logWithColor_skip (stk : List Frame) (now : Time) (level : LogLevel) (msg : String)
    (p : Proc) (h : level < p.logger.level) :
    logWithColor stk now level msg p = .returned p := by
  simp [logWithColor, not_le.mpr h]

theorem logWithColor_emit (stk : List Frame) (now : Time) (level : LogLevel) (msg : String)
    (p : Proc) (lg : StdLogger) (h : p.logger.level ≤ level)
    (hget : mapGet p.logger.loggers level = some lg) :
    logWithColor stk now level msg p =
      .returned { p with writes := p.writes ++ [(lg.out, lg.pfx ++
        ((if p.logger.renderCallerInfo then
            p.logger.fileColor ++ "[" ++
              getCallerInfo p.logger ({ file := loggerFile, line := 96 } :: stk) ++ "]" ++
              ColorReset ++ " "
          else "") ++
          (p.logger.timeColor ++ "[" ++ now.Format ++ "]" ++ ColorReset ++ " " ++
            getLevelColor p.logger level ++ msg ++ ColorReset)) ++ "\n")] } := by
  unfold logWithColor
  simp only [h, if_true, hget]
  by_cases hr : p.logger.renderCallerInfo = true
  · simp only [hr, if_true]
    rw [← String.append_assoc _ _ ColorReset, Output_reset]
  · simp only [hr, Bool.false_eq_true, if_false]
    rw [Output_reset]
    simp [String.append_assoc]

theorem level_mem (c : Call) :
    c.level ∈ [LogLevelDebug, LogLevelInfo, LogLevelWarning, LogLevelError, LogLevelFatal] := by
  cases c <;> simp [Call.level]

theorem logWithColor_NewLogger (c : Call) (sprintf : String → List Value → String)
    (stk : List Frame) (now : Time) (out : Writer) (T : LogLevel) (r : Bool)
    (writes : List (Writer × String)) :
    logWithColor (c.frames stk) now c.level (c.message sprintf)
        { logger := NewLogger out T r, writes := writes } =
      .returned { logger := NewLogger out T r,
                  writes := if T ≤ c.level then
                      writes ++ [(out, c.composed sprintf stk now (NewLogger out T r))]
                    else writes } := by
  by_cases hT : T ≤ c.level
  · rw [logWithColor_emit _ _ _ _ _ _ hT (mapGet_NewLogger out T r c.level (level_mem c))]
    simp [hT, Call.composed, logNew]
  · rw [logWithColor_skip _ _ _ _ _ (not_le.mp hT)]
    simp [hT]

theorem run_NewLogger (c : Call) (sprintf : String → List Value → String)
    (stk : List Frame) (now : Time) (out : Writer) (T : LogLevel) (r : Bool)
    (writes : List (Writer × String)) :
    c.run sprintf stk now { logger := NewLogger out T r, writes := writes } =
      (if c.isFatal then Outcome.exited 1 else Outcome.returned)
        { logger := NewLogger out T r,
          writes := if T ≤ c.level then
              writes ++ [(out, c.composed sprintf stk now (NewLogger out T r))]
            else writes } := by
  have h := logWithColor_NewLogger c sprintf stk now out T r writes
  cases c <;>
    simp only [Call.run, Debug, Info, Warning, Error, Fatal, Infof, Warningf, Errorf, Fatalf,
      logWithColorf, Call.isFatal, Call.frames, Call.isPlain, Call.line, Call.level,
      Call.message, if_true, if_false, Bool.false_eq_true] at h ⊢ <;>
    first
    | exact h
    | (rw [h]; rfl)
    | (split
       · first | exact h | (rw [h]; rfl)
       · rename_i hT
         change ¬ T ≤ _ at hT
         simp [hT, Outcome.andThen, osExit])

theorem logWithColor_frame (stk : List Frame) (now : Time) (level : LogLevel) (msg : String)
    (p : Proc) :
    (∃ q, (logWithColor stk now level msg p = .returned q ∨
        logWithColor stk now level msg p = .panicked q) ∧
      q.logger = p.logger ∧ ∃ extra, q.writes = p.writes ++ extra) := by
  unfold logWithColor
  by_cases h : p.logger.level ≤ level
  · simp only [h, if_true]
    cases hg : mapGet p.logger.loggers level with
    | none => exact ⟨p, Or.inr rfl, rfl, [], by simp⟩
    | some lg => exact ⟨_, Or.inl rfl, rfl, _, rfl⟩
  · simp only [h, if_false]
    exact ⟨p, Or.inl rfl, rfl, [], by simp⟩

theorem run_frame (c : Call) (sprintf : String → List Value → String) (stk : List Frame)
    (now : Time) (p : Proc) :
    (c.run sprintf stk now p).proc.logger = p.logger ∧
      ∃ extra, (c.run sprintf stk now p).proc.writes = p.writes ++ extra := by
  have key : ∀ (stk : List Frame) (level : LogLevel) (msg : String) (k : Proc → Outcome),
      (∀ q, (k q).proc = q) →
      ((logWithColor stk now level msg p).andThen k).proc.logger = p.logger ∧
        ∃ extra, ((logWithColor stk now level msg p).andThen k).proc.writes =
          p.writes ++ extra := by
    intro stk level msg k hk
    obtain ⟨q, hq, hl, extra, hw⟩ := logWithColor_frame stk now level msg p
    rcases hq with hq | hq
    · rw [hq]; simp only [Outcome.andThen, hk]; exact ⟨hl, extra, hw⟩
    · rw [hq]; simp only [Outcome.andThen, Outcome.proc]; exact ⟨hl, extra, hw⟩
  have plain : ∀ (stk : List Frame) (level : LogLevel) (msg : String),
      (logWithColor stk now level msg p).proc.logger = p.logger ∧
        ∃ extra, (logWithColor stk now level msg p).proc.writes = p.writes ++ extra := by
    intro stk level msg
    have h := key stk level msg Outcome.returned (fun _ => rfl)
    have e : (logWithColor stk now level msg p).andThen Outcome.returned =
        logWithColor stk now level msg p := by
      cases logWithColor stk now level msg p <;> rfl
    rwa [e] at h
  cases c <;>
    simp only [Call.run, Debug, Info, Warning, Error, Fatal, Infof, Warningf, Errorf, Fatalf,
      logWithColorf] <;>
    first
    | exact plain _ _ _
    | exact key _ _ _ _ (fun _ => rfl)
    | (split
       · first | exact plain _ _ _ | exact key _ _ _ _ (fun _ => rfl)
       · exact ⟨rfl, [], by simp [Outcome.andThen, osExit, Outcome.proc]⟩)

theorem proc_finish (c : Call) (q : Proc) :
    ((if c.isFatal then Outcome.exited 1 else Outcome.returned) q).proc = q := by
  split <;> rfl

/-! ## Colour codes of the lines written -/

theorem colourCodes_cons_ne (c : Char) (cs : List Char) (h : c ≠ esc) :
    colourCodes (c :: cs) = colourCodes cs := by
  have hr : ColorReset.data = '\x1b' :: ['[', '0', 'm'] := by decide
  have h1 : ColorRed.data = '\x1b' :: ['[', '3', '1', 'm'] := by decide
  have h2 : ColorGreen.data = '\x1b' :: ['[', '3', '2', 'm'] := by decide
  have h3 : ColorYellow.data = '\x1b' :: ['[', '3', '3', 'm'] := by decide
  have h4 : ColorBlue.data = '\x1b' :: ['[', '3', '4', 'm'] := by decide
  have h5 : ColorMagenta.data = '\x1b' :: ['[', '3', '5', 'm'] := by decide
  have h6 : ColorCyan.data = '\x1b' :: ['[', '3', '6', 'm'] := by decide
  have hne : ¬ ('\x1b' = c) := fun e => h e.symm
  simp [colourCodes, startCodes, hr, h1, h2, h3, h4, h5, h6, List.isPrefixOf, hne]

theorem colourCodes_append_plain (xs ys : List Char) (h : ∀ c ∈ xs, c ≠ esc) :
    colourCodes (xs ++ ys) = colourCodes ys := by
  induction xs with
  | nil => rfl
  | cons x xs ih =>
    rw [List.cons_append, colourCodes_cons_ne _ _ (h x (List.mem_cons_self _ _))]
    exact ih (fun c hc => h c (List.mem_cons_of_mem _ hc))

theorem colourCodes_reset (ys : List Char) :
    colourCodes ('\x1b' :: '[' :: '0' :: 'm' :: ys) = false :: colourCodes ys := by
  rw [colourCodes, if_pos (by simp [ColorReset, List.isPrefixOf]), colourCodes_cons_ne _ _ (by decide),
    colourCodes_cons_ne _ _ (by decide), colourCodes_cons_ne _ _ (by decide)]

theorem colourCodes_start (d : Char) (ys : List Char)
    (hd : d ∈ ['1', '2', '3', '4', '5', '6']) :
    colourCodes ('\x1b' :: '[' :: '3' :: d :: 'm' :: ys) = true :: colourCodes ys := by
  have hne : d ≠ esc := by
    simp only [List.mem_cons, List.mem_singleton, List.not_mem_nil, or_false] at hd
    rcases hd with h | h | h | h | h | h <;> subst h <;> decide
  simp only [List.mem_cons, List.mem_singleton, List.not_mem_nil, or_false] at hd
  rw [colourCodes, if_neg (by simp [ColorReset, List.isPrefixOf]), if_pos,
    colourCodes_cons_ne _ _ (by decide),
    colourCodes_cons_ne _ _ (by decide), colourCodes_cons_ne _ _ hne,
    colourCodes_cons_ne _ _ (by decide)]
  rcases hd with h | h | h | h | h | h <;> subst h <;>
    simp [startCodes, ColorRed, ColorGreen, ColorYellow, ColorBlue, ColorMagenta, ColorCyan,
      List.isPrefixOf]

theorem digitChar_plain (d : Nat) : Nat.digitChar d ≠ esc := by
  match d with
  | 0 | 1 | 2 | 3 | 4 | 5 | 6 | 7 | 8 | 9 | 10 | 11 | 12 | 13 | 14 | 15 => decide
  | n + 16 =>
    have e : Nat.digitChar (n + 16) = '*' := by
      unfold Nat.digitChar
      simp
    rw [e]; decide

theorem toDigitsCore_plain (fuel n : Nat) (acc : List Char) (h : ∀ c ∈ acc, c ≠ esc) :
    ∀ c ∈ Nat.toDigitsCore 10 fuel n acc, c ≠ esc := by
  induction fuel generalizing n acc with
  | zero => simpa [Nat.toDigitsCore] using h
  | succ f ih =>
    have hacc : ∀ c ∈ Nat.digitChar (n % 10) :: acc, c ≠ esc := by
      intro c hc
      rcases List.mem_cons.mp hc with e | e
      · rw [e]; exact digitChar_plain _
      · exact h c e
    unfold Nat.toDigitsCore
    simp only
    split
    · exact hacc
    · exact ih _ _ hacc

theorem toString_nat_plain (n : Nat) : ∀ c ∈ (toString n).data, c ≠ esc := by
  show ∀ c ∈ (Nat.repr n).data, c ≠ esc
  unfold Nat.repr Nat.toDigits
  exact toDigitsCore_plain _ _ _ (by simp)

theorem zeroPad_plain (w n : Nat) : ∀ c ∈ (zeroPad w n).data, c ≠ esc := by
  intro c hc
  unfold zeroPad at hc
  rw [String.data_append, List.mem_append] at hc
  rcases hc with hc | hc
  · rw [List.eq_of_mem_replicate hc]; decide
  · exact toString_nat_plain n c hc

theorem Format_plain (t : Time) : ∀ c ∈ t.Format.data, c ≠ esc := by
  intro c hc
  unfold Time.Format at hc
  simp only [String.data_append, List.mem_append] at hc
  have hs : ∀ s : String, s = "/" ∨ s = " " ∨ s = ":" → c ∈ s.data → c ≠ esc := by
    intro s hs hcs
    rcases hs with e | e | e <;> subst e <;>
      (simp only [String.data, List.mem_singleton] at hcs; rw [hcs]; decide)
  rcases hc with ((((((((((hc | hc) | hc) | hc) | hc) | hc) | hc) | hc) | hc) | hc) | hc)
  all_goals first
    | exact zeroPad_plain _ _ c hc
    | exact hs _ (Or.inl rfl) hc
    | exact hs _ (Or.inr (Or.inl rfl)) hc
    | exact hs _ (Or.inr (Or.inr rfl)) hc

theorem getLevelColor_start (l : Logger) (c : Call) :
    ∃ d ∈ ['1', '2', '3', '4', '5', '6'],
      (getLevelColor l c.level).data = '\x1b' :: '[' :: '3' :: d :: ['m'] := by
  cases c
  case debug => exact ⟨'4', by simp, rfl⟩
  case info => exact ⟨'2', by simp, rfl⟩
  case infof => exact ⟨'2', by simp, rfl⟩
  case warning => exact ⟨'3', by simp, rfl⟩
  case warningf => exact ⟨'3', by simp, rfl⟩
  case error => exact ⟨'1', by simp, rfl⟩
  case errorf => exact ⟨'1', by simp, rfl⟩
  case fatal => exact ⟨'1', by simp, rfl⟩
  case fatalf => exact ⟨'1', by simp, rfl⟩

theorem codes_paired_without_caller (sprintf : String → List Value → String) (c : Call)
    (stk : List Frame) (now : Time) (out : Writer) (T : LogLevel)
    (writes : List (Writer × String)) (hT : T ≤ c.level)
    (hm : ∀ ch ∈ (c.message sprintf).data, ch ≠ esc) :
    ∃ line,
      (c.run sprintf stk now { logger := NewLogger out T false, writes := writes }).proc.writes =
        writes ++ [(out, line)] ∧
      colourCodes line.data = [true, false, true, false] ∧
      paired (colourCodes line.data) = true := by
  rw [run_NewLogger, proc_finish, if_pos hT]
  refine ⟨_, rfl, ?_⟩
  obtain ⟨d, hd, hcol⟩ := getLevelColor_start (NewLogger out T false) c
  have key : colourCodes (c.composed sprintf stk now (NewLogger out T false)).data =
      [true, false, true, false] := by
    have hr : ColorReset.data = '\x1b' :: '[' :: '0' :: ['m'] := by decide
    have hc : ColorCyan.data = '\x1b' :: '[' :: '3' :: '6' :: ['m'] := by decide
    have e1 : (NewLogger out T false).renderCallerInfo = false := rfl
    have e2 : (NewLogger out T false).timeColor = ColorCyan := rfl
    simp only [Call.composed, e1, e2, Bool.false_eq_true, if_false, String.data_append,
      hcol, hr, hc, String.data, List.nil_append, List.append_assoc, List.cons_append,
      List.singleton_append]
    rw [colourCodes_start _ _ (by simp), colourCodes_cons_ne _ _ (by decide),
      colourCodes_append_plain _ _ (Format_plain now), colourCodes_cons_ne _ _ (by decide),
      colourCodes_reset, colourCodes_cons_ne _ _ (by decide), colourCodes_start _ _ hd,
      colourCodes_append_plain _ _ hm, colourCodes_reset, colourCodes_cons_ne _ _ (by decide)]
    rfl
  rw [key]
  exact ⟨rfl, rfl⟩

/-! ## The frame `getCallerInfo` reads -/

theorem Base_loggerFile : Base loggerFile = "logger.go" := by decide

theorem getCallerInfo_plain_path (l : Logger) (n : Nat) (site : Frame) (rest : List Frame) :
    getCallerInfo l
        ({ file := loggerFile, line := 96 } :: { file := loggerFile, line := n } ::
          site :: rest) =
      l.fileColor ++ "[" ++ Base site.file ++ ":" ++ toString site.line ++ "]" ++ ColorReset :=
  rfl

theorem getCallerInfo_formatted_path (l : Logger) (n : Nat) (stk : List Frame) :
    getCallerInfo l
        ({ file := loggerFile, line := 96 } :: { file := loggerFile, line := 149 } ::
          { file := loggerFile, line := n } :: stk) =
      l.fileColor ++ "[" ++ "logger.go" ++ ":" ++ toString n ++ "]" ++ ColorReset := by
  show l.fileColor ++ "[" ++ Base loggerFile ++ ":" ++ toString n ++ "]" ++ ColorReset = _
  rw [Base_loggerFile]

theorem logWithColor_stack_unread (stk stk2 : List Frame) (now : Time) (level : LogLevel)
    (msg : String) (p : Proc) (h : p.logger.renderCallerInfo = false) :
    logWithColor stk now level msg p = logWithColor stk2 now level msg p := by
  simp [logWithColor, h]

theorem logWithColorf_eq (sprintf : String → List Value → String) (stk : List Frame)
    (now : Time) (level : LogLevel) (format : String) (args : List Value) (p : Proc) :
    logWithColorf sprintf stk now level format args p =
      logWithColor ({ file := loggerFile, line := 149 } :: stk) now level
        (sprintf format args) p := by
  unfold logWithColorf
  split
  · rfl
  · rename_i h
    simp [logWithColor, h]

theorem formatted_eq_plain_without_caller (sprintf : String → List Value → String)
    (stk : List Frame) (now : Time) (format : String) (args : List Value) (p : Proc)
    (h : p.logger.renderCallerInfo = false) :
    Infof sprintf stk now format args p = Info stk now (sprintf format args) p ∧
    Warningf sprintf stk now format args p = Warning stk now (sprintf format args) p ∧
    Errorf sprintf stk now format args p = Error stk now (sprintf format args) p ∧
    Fatalf sprintf stk now format args p = Fatal stk now (sprintf format args) p := by
  simp only [Infof, Warningf, Errorf, Fatalf, Info, Warning, Error, Fatal, logWithColorf_eq]
  refine ⟨?_, ?_, ?_, ?_⟩ <;> rw [logWithColor_stack_unread _ _ _ _ _ _ h]

/-! ## Properties of the public calls -/

/-- C1: on a logger built by `NewLogger` with threshold `T`, each of the nine
public calls, of severity `S`, adds one write to the sink exactly when
`T ≤ S`, and leaves the record of writes as it was exactly when `S < T`. -/
theorem emits_iff_threshold_le (sprintf : String → List Value → String) (c : Call)
    (stk : List Frame) (now : Time) (out : Writer) (T : LogLevel) (r : Bool)
    (writes : List (Writer × String)) :
    ((∃ line, (c.run sprintf stk now { logger := NewLogger out T r, writes := writes }).proc.writes
        = writes ++ [(out, line)]) ↔ T ≤ c.level) ∧
    ((c.run sprintf stk now { logger := NewLogger out T r, writes := writes }).proc.writes
        = writes ↔ c.level < T) := by
  rw [run_NewLogger]
  have hp : ∀ q : Proc, ((if c.isFatal then Outcome.exited 1 else Outcome.returned) q).proc = q := by
    intro q; split <;> rfl
  rw [hp]
  by_cases hT : T ≤ c.level
  · simp only [hT, if_true, iff_true]
    refine ⟨⟨_, rfl⟩, ?_⟩
    constructor
    · intro h
      have := congrArg List.length h
      simp at this
    · intro h; exact absurd hT (not_le.mpr h)
  · simp only [hT, if_false, iff_false]
    refine ⟨?_, ?_⟩
    · rintro ⟨line, h⟩
      have := congrArg List.length h
      simp at this
    · simp [not_le.mp hT]

/-- C2: on a logger built by `NewLogger` (any sink, threshold and flag),
`Fatal` and `Fatalf` end with the process exited with status 1, and each of
the seven other public calls returns to its caller. -/
theorem fatal_exits_others_return (sprintf : String → List Value → String)
    (stk : List Frame) (now : Time) (out : Writer) (T : LogLevel) (r : Bool)
    (writes : List (Writer × String)) (msg format : String) (args : List Value) :
    (∃ q, Fatal stk now msg { logger := NewLogger out T r, writes := writes } = .exited 1 q) ∧
    (∃ q, Fatalf sprintf stk now format args { logger := NewLogger out T r, writes := writes }
        = .exited 1 q) ∧
    (∃ q, Debug stk now msg { logger := NewLogger out T r, writes := writes } = .returned q) ∧
    (∃ q, Info stk now msg { logger := NewLogger out T r, writes := writes } = .returned q) ∧
    (∃ q, Warning stk now msg { logger := NewLogger out T r, writes := writes } = .returned q) ∧
    (∃ q, Error stk now msg { logger := NewLogger out T r, writes := writes } = .returned q) ∧
    (∃ q, Infof sprintf stk now format args { logger := NewLogger out T r, writes := writes }
        = .returned q) ∧
    (∃ q, Warningf sprintf stk now format args { logger := NewLogger out T r, writes := writes }
        = .returned q) ∧
    (∃ q, Errorf sprintf stk now format args { logger := NewLogger out T r, writes := writes }
        = .returned q) :=
  ⟨⟨_, run_NewLogger (.fatal msg) sprintf stk now out T r writes⟩,
   ⟨_, run_NewLogger (.fatalf format args) sprintf stk now out T r writes⟩,
   ⟨_, run_NewLogger (.debug msg) sprintf stk now out T r writes⟩,
   ⟨_, run_NewLogger (.info msg) sprintf stk now out T r writes⟩,
   ⟨_, run_NewLogger (.warning msg) sprintf stk now out T r writes⟩,
   ⟨_, run_NewLogger (.error msg) sprintf stk now out T r writes⟩,
   ⟨_, run_NewLogger (.infof format args) sprintf stk now out T r writes⟩,
   ⟨_, run_NewLogger (.warningf format args) sprintf stk now out T r writes⟩,
   ⟨_, run_NewLogger (.errorf format args) sprintf stk now out T r writes⟩⟩

/-- C9: no public call changes the logger; whatever the logger and however the
call ends, the logger (threshold, colours, flag, writer table) is afterwards
what it was, and the record of writes is the old one with writes added. -/
theorem calls_leave_logger_unchanged (sprintf : String → List Value → String) (c : Call)
    (stk : List Frame) (now : Time) (p : Proc) :
    (c.run sprintf stk now p).proc.logger = p.logger ∧
    (c.run sprintf stk now p).proc.logger.level = p.logger.level ∧
    (c.run sprintf stk now p).proc.logger.timeColor = p.logger.timeColor ∧
    (c.run sprintf stk now p).proc.logger.fileColor = p.logger.fileColor ∧
    (c.run sprintf stk now p).proc.logger.renderCallerInfo = p.logger.renderCallerInfo ∧
    (c.run sprintf stk now p).proc.logger.loggers = p.logger.loggers ∧
    ∃ added, (c.run sprintf stk now p).proc.writes = p.writes ++ added := by
  obtain ⟨h, hw⟩ := run_frame c sprintf stk now p
  exact ⟨h, by rw [h], by rw [h], by rw [h], by rw [h], by rw [h], hw⟩

/-- C10: the table of a logger built by `NewLogger` has, for each of the five
severities, an entry bound to the sink passed in; so the table read of every
public call finds a writer and no public call panics. -/
theorem table_total_on_severities (sprintf : String → List Value → String) (c : Call)
    (stk : List Frame) (now : Time) (out : Writer) (T : LogLevel) (r : Bool)
    (writes : List (Writer × String)) :
    mapGet (NewLogger out T r).loggers LogLevelDebug = some (logNew out "" 0) ∧
    mapGet (NewLogger out T r).loggers LogLevelInfo = some (logNew out "" 0) ∧
    mapGet (NewLogger out T r).loggers LogLevelWarning = some (logNew out "" 0) ∧
    mapGet (NewLogger out T r).loggers LogLevelError = some (logNew out "" 0) ∧
    mapGet (NewLogger out T r).loggers LogLevelFatal = some (logNew out "" 0) ∧
    (logNew out "" 0).out = out ∧
    (∃ lg, mapGet (NewLogger out T r).loggers c.level = some lg ∧ lg.out = out) ∧
    (∀ q, c.run sprintf stk now { logger := NewLogger out T r, writes := writes }
        ≠ .panicked q) := by
  refine ⟨rfl, rfl, rfl, rfl, rfl, rfl,
    ⟨_, mapGet_NewLogger out T r c.level (level_mem c), rfl⟩, ?_⟩
  intro q
  rw [run_NewLogger]
  split <;> simp

/-- C3, the claim as stated fails: with a threshold above `LogLevelFatal`
(here 5), `Fatal("x")` ends the process with status 1 and the sink has
received nothing. -/
theorem fatal_above_threshold_exits_without_write :
    Fatal [{ file := "/home/u/app/main.go", line := 10 }]
        { year := 2024, month := 3, day := 7, hour := 9, minute := 5, second := 0 } "x"
        { logger := NewLogger 1 5 false, writes := [] } =
      .exited 1 { logger := NewLogger 1 5 false, writes := [] } := by
  decide

/-- C3 as amended: on a logger built by `NewLogger` with a threshold
`T ≤ LogLevelFatal`, `Fatal(msg)` writes one line, which ends in the red code,
`msg`, the reset code and the line terminator, and ends with the process
exited with status 1; with `LogLevelFatal < T` it ends the same way without a
write. -/
theorem fatal_writes_line_then_exits (stk : List Frame) (now : Time) (out : Writer)
    (T : LogLevel) (r : Bool) (writes : List (Writer × String)) (msg : String) :
    (T ≤ LogLevelFatal →
      Fatal stk now msg { logger := NewLogger out T r, writes := writes } =
        .exited 1 { logger := NewLogger out T r,
                    writes := writes ++ [(out,
                      (if r then
                          ColorMagenta ++ "[" ++
                            getCallerInfo (NewLogger out T r)
                              ({ file := loggerFile, line := 96 } ::
                                { file := loggerFile, line := 86 } :: stk) ++ "]" ++
                            ColorReset ++ " "
                        else "") ++
                      (ColorCyan ++ "[" ++ now.Format ++ "]" ++ ColorReset ++ " " ++
                        ColorRed ++ msg ++ ColorReset) ++ "\n")] }) ∧
    (LogLevelFatal < T →
      Fatal stk now msg { logger := NewLogger out T r, writes := writes } =
        .exited 1 { logger := NewLogger out T r, writes := writes }) := by
  have h := run_NewLogger (.fatal msg) (fun _ _ => "") stk now out T r writes
  simp only [Call.run, Call.isFatal, if_true, Call.level] at h
  constructor
  · intro hT
    rw [h, if_pos hT]
    rfl
  · intro hT
    rw [h, if_neg (not_le.mpr hT)]

/-- C3 as amended, at a concrete logger: threshold `LogLevelDebug`, caller
rendering off. -/
theorem fatal_writes_line_then_exits_witness :
    Fatal [{ file := "/home/u/app/main.go", line := 10 }]
        { year := 2024, month := 3, day := 7, hour := 9, minute := 5, second := 0 } "x"
        { logger := NewLogger 1 LogLevelDebug false, writes := [] } =
      .exited 1 { logger := NewLogger 1 LogLevelDebug false,
                  writes := [(1, "\x1b[36m[2024/03/07 09:05:00]\x1b[0m \x1b[31mx\x1b[0m\n")] } :=
  ((fatal_writes_line_then_exits [{ file := "/home/u/app/main.go", line := 10 }]
      { year := 2024, month := 3, day := 7, hour := 9, minute := 5, second := 0 }
      1 LogLevelDebug false [] "x").1 (by decide)).trans (by decide)

/-- C7: with caller rendering off and `T ≤ S`, the plain call of severity `S`
with message `m` adds exactly one write to the sink, and the line written is
the cyan code, `[`, the timestamp text, `]`, the reset code, a space, the
colour code of `S`, `m`, the reset code and a newline.  With threshold
`LogLevelWarning`, `Info("x")` writes nothing and `Warning("x")` writes one
line holding `x` between the yellow code and the reset code. -/
theorem plain_line_without_caller_fragment (sprintf : String → List Value → String)
    (m : String) (c : Call) (stk : List Frame) (now : Time) (out : Writer) (T : LogLevel)
    (writes : List (Writer × String))
    (hc : c ∈ [Call.debug m, Call.info m, Call.warning m, Call.error m, Call.fatal m])
    (hT : T ≤ c.level) :
    (c.run sprintf stk now { logger := NewLogger out T false, writes := writes }).proc.writes =
        writes ++ [(out, ColorCyan ++ "[" ++ now.Format ++ "]" ++ ColorReset ++ " " ++
          getLevelColor (NewLogger out T false) c.level ++ m ++ ColorReset ++ "\n")] ∧
    (Info stk now "x" { logger := NewLogger out LogLevelWarning false, writes := writes }).proc.writes
        = writes ∧
    (Warning stk now "x"
        { logger := NewLogger out LogLevelWarning false, writes := writes }).proc.writes =
      writes ++ [(out, ColorCyan ++ "[" ++ now.Format ++ "]" ++ ColorReset ++ " " ++
          ColorYellow ++ "x" ++ ColorReset ++ "\n")] := by
  refine ⟨?_, ?_, ?_⟩
  · rw [run_NewLogger, proc_finish, if_pos hT]
    simp only [List.mem_cons, List.mem_singleton, List.not_mem_nil, or_false] at hc
    rcases hc with h | h | h | h | h <;> subst h <;>
      simp [Call.composed, NewLogger, Call.message, String.append_assoc]
  · have h := run_NewLogger (.info "x") sprintf stk now out LogLevelWarning false writes
    simp only [Call.run] at h
    rw [h, proc_finish]
    rfl
  · have h := run_NewLogger (.warning "x") sprintf stk now out LogLevelWarning false writes
    simp only [Call.run] at h
    rw [h, proc_finish]
    simp [Call.composed, NewLogger, Call.message, String.append_assoc, Call.level,
      getLevelColor, LogLevelWarning, LogLevelDebug, LogLevelInfo]

/-- C7 at a concrete call: `Error("disk full")` on a logger with threshold
`LogLevelInfo` and caller rendering off. -/
theorem plain_line_without_caller_fragment_witness :
    (Call.run Sprintf [{ file := "/home/u/app/main.go", line := 10 }]
        { year := 2024, month := 3, day := 7, hour := 9, minute := 5, second := 0 }
        (Call.error "disk full")
        { logger := NewLogger 1 LogLevelInfo false, writes := [] }).proc.writes =
      [(1, "\x1b[36m[2024/03/07 09:05:00]\x1b[0m \x1b[31mdisk full\x1b[0m\n")] :=
  ((plain_line_without_caller_fragment Sprintf "disk full" (Call.error "disk full")
      [{ file := "/home/u/app/main.go", line := 10 }]
      { year := 2024, month := 3, day := 7, hour := 9, minute := 5, second := 0 }
      1 LogLevelInfo [] (by simp) (by decide)).1).trans (by decide)

/-- C8: `getLevelColor` gives blue for Debug, green for Info, yellow for
Warning, red for Error and for Fatal, and the reset code for every level below
Debug or above Fatal; and the line a public call writes ends in the code of
the call's severity, the message text, the reset code and a newline, the code
standing right after the timestamp fragment. -/
theorem level_colour_table (l : Logger) (sprintf : String → List Value → String) (c : Call)
    (stk : List Frame) (now : Time) (out : Writer) (T : LogLevel) (r : Bool)
    (writes : List (Writer × String)) :
    getLevelColor l LogLevelDebug = ColorBlue ∧
    getLevelColor l LogLevelInfo = ColorGreen ∧
    getLevelColor l LogLevelWarning = ColorYellow ∧
    getLevelColor l LogLevelError = ColorRed ∧
    getLevelColor l LogLevelFatal = ColorRed ∧
    (∀ level : LogLevel, level < LogLevelDebug ∨ LogLevelFatal < level →
      getLevelColor l level = ColorReset) ∧
    (T ≤ c.level → ∃ callerPart,
      (c.run sprintf stk now { logger := NewLogger out T r, writes := writes }).proc.writes =
        writes ++ [(out, callerPart ++
          (ColorCyan ++ "[" ++ now.Format ++ "]" ++ ColorReset ++ " ") ++
          getLevelColor (NewLogger out T r) c.level ++ c.message sprintf ++ ColorReset ++
          "\n")]) := by
  refine ⟨rfl, rfl, rfl, rfl, rfl, ?_, ?_⟩
  · intro (level : Int) h
    simp only [LogLevelDebug, LogLevelFatal] at h
    change level < (0 : Int) ∨ (4 : Int) < level at h
    have h0 : level ≠ 0 := by omega
    have h1 : level ≠ 1 := by omega
    have h2 : level ≠ 2 := by omega
    have h3 : level ≠ 3 := by omega
    have h4 : level ≠ 4 := by omega
    simp [getLevelColor, LogLevelDebug, LogLevelInfo, LogLevelWarning, LogLevelError,
      LogLevelFatal, h0, h1, h2, h3, h4]
  · intro hT
    rw [run_NewLogger, proc_finish, if_pos hT]
    refine ⟨if (NewLogger out T r).renderCallerInfo then
        (NewLogger out T r).fileColor ++ "[" ++
          getCallerInfo (NewLogger out T r)
            ({ file := loggerFile, line := 96 } :: c.frames stk) ++ "]" ++ ColorReset ++ " "
      else "", ?_⟩
    simp only [Call.composed, String.append_assoc]
    rfl

/-- C8 at concrete inputs: level 7 gets the reset code, and `Warningf` on a
logger with threshold `LogLevelDebug` writes the yellow code before its
message. -/
theorem level_colour_table_witness :
    getLevelColor (NewLogger 1 LogLevelDebug false) 7 = ColorReset ∧
    ∃ callerPart,
      (Call.run Sprintf [{ file := "/home/u/app/main.go", line := 10 }]
          { year := 2024, month := 3, day := 7, hour := 9, minute := 5, second := 0 }
          (Call.warningf "n=%d" [Value.int 2])
          { logger := NewLogger 1 LogLevelDebug false, writes := [] }).proc.writes =
        [] ++ [(1, callerPart ++
          (ColorCyan ++ "[" ++
            Time.Format
              { year := 2024, month := 3, day := 7, hour := 9, minute := 5, second := 0 } ++
            "]" ++ ColorReset ++ " ") ++
          getLevelColor (NewLogger 1 LogLevelDebug false) LogLevelWarning ++
          Call.message Sprintf (Call.warningf "n=%d" [Value.int 2]) ++ ColorReset ++ "\n")] :=
  ⟨(level_colour_table (NewLogger 1 LogLevelDebug false) Sprintf
      (Call.warningf "n=%d" [Value.int 2]) [{ file := "/home/u/app/main.go", line := 10 }]
      { year := 2024, month := 3, day := 7, hour := 9, minute := 5, second := 0 }
      1 LogLevelDebug false []).2.2.2.2.2.1 7 (Or.inr (by decide)),
   (level_colour_table (NewLogger 1 LogLevelDebug false) Sprintf
      (Call.warningf "n=%d" [Value.int 2]) [{ file := "/home/u/app/main.go", line := 10 }]
      { year := 2024, month := 3, day := 7, hour := 9, minute := 5, second := 0 }
      1 LogLevelDebug false []).2.2.2.2.2.2 (by decide)⟩

/-- C4, the code at a failing input: with caller rendering on, each formatted
call made from `main.go:10` writes a line whose caller fragment names a line
of `logger.go`, that of the public method itself (`Infof` 127, `Warningf` 132,
`Errorf` 137, `Fatalf` 142), whereas `Info("x")` called from the same place
writes `main.go:10`. -/
theorem formatted_call_names_logger_frame :
    Infof Sprintf [{ file := "/home/u/app/main.go", line := 10 }]
        { year := 2024, month := 3, day := 7, hour := 9, minute := 5, second := 0 } "x" []
        { logger := NewLogger 1 LogLevelDebug true, writes := [] } =
      .returned { logger := NewLogger 1 LogLevelDebug true,
                  writes := [(1, "\x1b[35m[\x1b[35m[logger.go:127]\x1b[0m]\x1b[0m " ++
                    "\x1b[36m[2024/03/07 09:05:00]\x1b[0m \x1b[32mx\x1b[0m\n")] } ∧
    Warningf Sprintf [{ file := "/home/u/app/main.go", line := 10 }]
        { year := 2024, month := 3, day := 7, hour := 9, minute := 5, second := 0 } "x" []
        { logger := NewLogger 1 LogLevelDebug true, writes := [] } =
      .returned { logger := NewLogger 1 LogLevelDebug true,
                  writes := [(1, "\x1b[35m[\x1b[35m[logger.go:132]\x1b[0m]\x1b[0m " ++
                    "\x1b[36m[2024/03/07 09:05:00]\x1b[0m \x1b[33mx\x1b[0m\n")] } ∧
    Errorf Sprintf [{ file := "/home/u/app/main.go", line := 10 }]
        { year := 2024, month := 3, day := 7, hour := 9, minute := 5, second := 0 } "x" []
        { logger := NewLogger 1 LogLevelDebug true, writes := [] } =
      .returned { logger := NewLogger 1 LogLevelDebug true,
                  writes := [(1, "\x1b[35m[\x1b[35m[logger.go:137]\x1b[0m]\x1b[0m " ++
                    "\x1b[36m[2024/03/07 09:05:00]\x1b[0m \x1b[31mx\x1b[0m\n")] } ∧
    Fatalf Sprintf [{ file := "/home/u/app/main.go", line := 10 }]
        { year := 2024, month := 3, day := 7, hour := 9, minute := 5, second := 0 } "x" []
        { logger := NewLogger 1 LogLevelDebug true, writes := [] } =
      .exited 1 { logger := NewLogger 1 LogLevelDebug true,
                  writes := [(1, "\x1b[35m[\x1b[35m[logger.go:142]\x1b[0m]\x1b[0m " ++
                    "\x1b[36m[2024/03/07 09:05:00]\x1b[0m \x1b[31mx\x1b[0m\n")] } ∧
    Info [{ file := "/home/u/app/main.go", line := 10 }]
        { year := 2024, month := 3, day := 7, hour := 9, minute := 5, second := 0 } "x"
        { logger := NewLogger 1 LogLevelDebug true, writes := [] } =
      .returned { logger := NewLogger 1 LogLevelDebug true,
                  writes := [(1, "\x1b[35m[\x1b[35m[main.go:10]\x1b[0m]\x1b[0m " ++
                    "\x1b[36m[2024/03/07 09:05:00]\x1b[0m \x1b[32mx\x1b[0m\n")] } := by
  refine ⟨?_, ?_, ?_, ?_, ?_⟩ <;> decide

/-- C5, the code at a failing input: with caller rendering on, called from
`main.go:10`, `Errorf("count=%d", 3)` and `Error(Sprintf("count=%d", 3))`
write different lines: the message body is `count=3` in red in both, the
caller fragment reads `logger.go:137` in the first and `main.go:10` in the
second. -/
theorem formatted_differs_from_plain_with_caller :
    Errorf Sprintf [{ file := "/home/u/app/main.go", line := 10 }]
        { year := 2024, month := 3, day := 7, hour := 9, minute := 5, second := 0 }
        "count=%d" [Value.int 3]
        { logger := NewLogger 1 LogLevelDebug true, writes := [] } =
      .returned { logger := NewLogger 1 LogLevelDebug true,
                  writes := [(1, "\x1b[35m[\x1b[35m[logger.go:137]\x1b[0m]\x1b[0m " ++
                    "\x1b[36m[2024/03/07 09:05:00]\x1b[0m \x1b[31mcount=3\x1b[0m\n")] } ∧
    Error [{ file := "/home/u/app/main.go", line := 10 }]
        { year := 2024, month := 3, day := 7, hour := 9, minute := 5, second := 0 }
        (Sprintf "count=%d" [Value.int 3])
        { logger := NewLogger 1 LogLevelDebug true, writes := [] } =
      .returned { logger := NewLogger 1 LogLevelDebug true,
                  writes := [(1, "\x1b[35m[\x1b[35m[main.go:10]\x1b[0m]\x1b[0m " ++
                    "\x1b[36m[2024/03/07 09:05:00]\x1b[0m \x1b[31mcount=3\x1b[0m\n")] } ∧
    Errorf Sprintf [{ file := "/home/u/app/main.go", line := 10 }]
        { year := 2024, month := 3, day := 7, hour := 9, minute := 5, second := 0 }
        "count=%d" [Value.int 3]
        { logger := NewLogger 1 LogLevelDebug true, writes := [] } ≠
      Error [{ file := "/home/u/app/main.go", line := 10 }]
        { year := 2024, month := 3, day := 7, hour := 9, minute := 5, second := 0 }
        (Sprintf "count=%d" [Value.int 3])
        { logger := NewLogger 1 LogLevelDebug true, writes := [] } := by
  decide

/-- C6, the code at a failing input: with caller rendering on, the line
`Debug("x")` writes has the colour codes start, start, reset, reset, start,
reset, start, reset: the caller fragment carries two start codes with no reset
code between them. -/
theorem caller_fragment_has_two_start_codes :
    Debug [{ file := "/home/u/app/main.go", line := 10 }]
        { year := 2024, month := 3, day := 7, hour := 9, minute := 5, second := 0 } "x"
        { logger := NewLogger 1 LogLevelDebug true, writes := [] } =
      .returned { logger := NewLogger 1 LogLevelDebug true,
                  writes := [(1, "\x1b[35m[\x1b[35m[main.go:10]\x1b[0m]\x1b[0m " ++
                    "\x1b[36m[2024/03/07 09:05:00]\x1b[0m \x1b[34mx\x1b[0m\n")] } ∧
    colourCodes ("\x1b[35m[\x1b[35m[main.go:10]\x1b[0m]\x1b[0m " ++
        "\x1b[36m[2024/03/07 09:05:00]\x1b[0m \x1b[34mx\x1b[0m\n").data =
      [true, true, false, false, true, false, true, false] ∧
    paired (colourCodes ("\x1b[35m[\x1b[35m[main.go:10]\x1b[0m]\x1b[0m " ++
        "\x1b[36m[2024/03/07 09:05:00]\x1b[0m \x1b[34mx\x1b[0m\n").data) = false := by
  decide

end Glogger
